import Mathlib

/-!
Verification of the issueSHARK synchronization engine against its
natural-language specification.  The definitions below are shallow
embeddings of the Python sources under `src/issueshark/`; each definition's
doc comment names the function it is translated from.  Python strings are
Lean `String`s, Python `None` is `Option.none`, MongoDB ObjectIds are `Nat`,
exceptions are `Except String`.
-/

namespace IssueShark

/-- Python's `needle in haystack` substring test. -/
def isSubstr (needle msg : String) : Bool :=
  let n := needle.toList
  let h := msg.toList
  (List.range (h.length + 1)).any (fun i => n.isPrefixOf (h.drop i))

/-- Python's `s.split(sep)` on character lists (non-empty separator): scan
left to right, cutting at each occurrence of the separator.  The second
argument counts separator characters still to be skipped after a match
(structural recursion on the scanned list). -/
def splitCharsAux (sep : List Char) : List Char → Nat → List (List Char)
  | [], _ => [[]]
  | _ :: rest, Nat.succ k => splitCharsAux sep rest k
  | c :: rest, 0 =>
    if sep ≠ [] ∧ sep.isPrefixOf (c :: rest) then
      [] :: splitCharsAux sep rest (sep.length - 1)
    else
      match splitCharsAux sep rest 0 with
      | [] => [[c]]
      | g :: gs => (c :: g) :: gs

/-- Python's `s.split(sep)`. -/
def pySplit (s sep : String) : List String :=
  (splitCharsAux sep.toList s.toList 0).map (fun cs => String.mk cs)

/-- Python's `s.replace(old, new)` on character lists: scan left to right,
replacing each non-overlapping occurrence; same skip-counter scheme as
`splitCharsAux`. -/
def replaceCharsAux (sep rep : List Char) : List Char → Nat → List Char
  | [], _ => []
  | _ :: rest, Nat.succ k => replaceCharsAux sep rep rest k
  | c :: rest, 0 =>
    if sep ≠ [] ∧ sep.isPrefixOf (c :: rest) then
      rep ++ replaceCharsAux sep rep rest (sep.length - 1)
    else
      c :: replaceCharsAux sep rep rest 0

/-- Python's `s.replace(old, new)`. -/
def pyReplace (s old new : String) : String :=
  String.mk (replaceCharsAux old.toList new.toList s.toList 0)

/-- The ordered phrase table of
`JiraBackend._get_issue_link_type_and_effect` (src/issueshark/backends/jirabackend.py,
the if/elif chain): each row is `(phrase, link type, link effect)`, in source
order.  The source's branch testing both `"Is contained by"` and
`"is contained by"` becomes two consecutive rows with the same result. -/
def jiraLinkPhraseTable : List (String × String × String) :=
  [ ("Blocked", "Blocked", "Blocked"),
    ("is blocked by", "Blocker", "is blocked by"),
    ("issue blocks", "Blocker", "blocks"),
    ("is cloned by", "Cloners", "is cloned by"),
    ("is a clone of", "Cloners", "is cloned by"),
    ("Is contained by", "Container", "is contained by"),
    ("is contained by", "Container", "is contained by"),
    ("contains", "Container", "contains"),
    ("Dependent", "Dependent", "Dependent"),
    ("is duplicated by", "Duplicate", "is duplicated by"),
    ("duplicates", "Duplicate", "duplicates"),
    ("is part of", "Incorporates", "is part of"),
    ("incorporates", "Incorporates", "incorporates"),
    ("is related to", "Reference", "is related to"),
    ("relates to", "Reference", "relates to"),
    ("is broken by", "Regression", "is broken by"),
    ("breaks", "Regression", "breaks"),
    ("is required by", "Required", "is required by"),
    ("requires", "Required", "requires"),
    ("is superceded by", "Supercedes", "is superceded by"),
    ("supercedes", "Supercedes", "supercedes"),
    ("is depended upon by", "Dependent", "is depended upon by"),
    ("depends upon", "Dependent", "depends upon"),
    ("depends on", "Dependent", "depends on") ]

/-- `JiraBackend._get_issue_link_type_and_effect`: the phrase table is
scanned top to bottom and the first phrase contained in `msg` wins; if no
phrase matches the source logs a warning and returns `(None, None)`,
modelled as `none`. -/
def getIssueLinkTypeAndEffect (msg : String) : Option (String × String) :=
  (jiraLinkPhraseTable.find? (fun t => isSubstr t.1 msg)).map (fun t => t.2)

/-- `BugzillaBackend._set_back_array_field` (src/issueshark/backends/bugzilla_old.py):
reverse-applies one change item to an array field.  `added`/`removed` are the
raw strings of the Bugzilla change (`""` is Python-falsy).  Everything in
`added` must be removed: `list.remove` drops the first occurrence, and the
source catches the `ValueError` of a missing value by clearing the whole
list.  Everything in `removed` must be added, but only when absent. -/
def bzOldSetBackArrayField (itemList : List String) (removed added : String) :
    List String :=
  let afterRemove :=
    if added ≠ "" then
      if added ∈ itemList then itemList.erase added else []
    else itemList
  if removed ≠ "" ∧ removed ∉ afterRemove then afterRemove ++ [removed]
  else afterRemove

/-- Reverse-apply rule for a multi-valued field exactly as the specification
words it (spec.md §4.2 step 5): "removing a value removes it from the set
(or, if not present, clears the whole set); adding a value (`removed` field
present) appends it if absent". -/
def specSetBackArrayField (itemList : List String) (removed added : String) :
    List String :=
  let removePhase :=
    if added = "" then itemList
    else if added ∈ itemList then itemList.erase added
    else []
  if removed = "" then removePhase
  else if removed ∈ removePhase then removePhase
  else removePhase ++ [removed]

/-- Helper for `JiraBackend._set_back_array_field`: the loop
`for new_label in new_value.split(" "): item_list.remove(new_label)`.
`list.remove` raises `ValueError` when the label is absent; the Jira
version has no `try`/`except`, so the error propagates. -/
def jiraRemoveLabels (l : List String) : List String → Except String (List String)
  | [] => .ok l
  | t :: ts =>
    if t ∈ l then jiraRemoveLabels (l.erase t) ts
    else .error "ValueError"

/-- `JiraBackend._set_back_array_field` (src/issueshark/backends/jirabackend.py):
`fromString` tokens are appended unconditionally, then `toString` tokens are
removed with `list.remove` (raising on a missing token).  `None` and `""`
are both Python-falsy. -/
def jiraSetBackArrayField (itemList : List String)
    (fromString toString : Option String) : Except String (List String) :=
  let withOld :=
    match fromString with
    | some s => if s ≠ "" then itemList ++ pySplit s " " else itemList
    | none => itemList
  match toString with
  | some s => if s ≠ "" then jiraRemoveLabels withOld (pySplit s " ") else .ok withOld
  | none => .ok withOld

/-- One entry of an issue's `issue_links` list: the Python dict
`{'issue_id': ..., 'type': ..., 'effect': ...}`.  The dict key `type` is the
field `ltype` here.  Type and effect are `Option` because
`JiraBackend._set_back_issue_links` can append a link whose classifier
returned `(None, None)`. -/
structure StoredLink where
  issue_id : Nat
  ltype : Option String
  effect : Option String
deriving DecidableEq

/-- Values carried in an Event's `old_value`/`new_value` slot: a raw string,
a People ObjectId, an issue-link dict, a whole string list or a whole link
list (the deep copies taken from a list-valued issue attribute). -/
inductive EvValue where
  | s (v : String)
  | person (id : Nat)
  | link (l : StoredLink)
  | strList (vs : List String)
  | linkList (ls : List StoredLink)
deriving DecidableEq

/-- The mongoengine `Issue` document as the backends use it.  `mid` models
the document's `.id` (its store ObjectId).  Timestamps stay raw strings
(date parsing is not modelled); People and Issue references are `Nat`
ObjectIds. -/
structure MongoIssue where
  mid : Nat := 0
  external_id : String := ""
  title : Option String := none
  desc : Option String := none
  status : Option String := none
  resolution : Option String := none
  priority : Option String := none
  issue_type : Option String := none
  environment : Option String := none
  platform : Option String := none
  affects_versions : List String := []
  components : List String := []
  labels : List String := []
  fix_versions : List String := []
  assignee_id : Option Nat := none
  issue_links : List StoredLink := []
  parent_issue_id : Option Nat := none
  original_time_estimate : Option String := none
  created_at : Option String := none
  updated_at : Option String := none
  creator_id : Option Nat := none
  reporter_id : Option Nat := none
deriving DecidableEq

/-- Attribute read used to model `getattr(mongo_issue, name)`: outer `none`
means the document class has no such attribute (`hasattr` false), the inner
`Option` is the attribute's value (`none` = Python `None`). -/
def mongoIssueGetAttr (i : MongoIssue) : String → Option (Option EvValue)
  | "external_id" => some (some (.s i.external_id))
  | "title" => some (i.title.map .s)
  | "desc" => some (i.desc.map .s)
  | "status" => some (i.status.map .s)
  | "resolution" => some (i.resolution.map .s)
  | "priority" => some (i.priority.map .s)
  | "issue_type" => some (i.issue_type.map .s)
  | "environment" => some (i.environment.map .s)
  | "platform" => some (i.platform.map .s)
  | "affects_versions" => some (some (.strList i.affects_versions))
  | "components" => some (some (.strList i.components))
  | "labels" => some (some (.strList i.labels))
  | "fix_versions" => some (some (.strList i.fix_versions))
  | "assignee_id" => some (i.assignee_id.map .person)
  | "issue_links" => some (some (.linkList i.issue_links))
  | "parent_issue_id" => some (i.parent_issue_id.map .person)
  | "original_time_estimate" => some (i.original_time_estimate.map .s)
  | "created_at" => some (i.created_at.map .s)
  | "updated_at" => some (i.updated_at.map .s)
  | "creator_id" => some (i.creator_id.map .person)
  | "reporter_id" => some (i.reporter_id.map .person)
  | _ => none

/-- `hasattr(mongo_issue, name)`. -/
def mongoIssueHasAttr (i : MongoIssue) (n : String) : Bool :=
  (mongoIssueGetAttr i n).isSome

/-- `getattr(mongo_issue, name)` where the attribute is known to exist. -/
def mongoIssueGet (i : MongoIssue) (n : String) : Option EvValue :=
  (mongoIssueGetAttr i n).join

/-- The `at_mapping` dict of `bugzilla_old.BugzillaBackend.__init__`:
Bugzilla raw field name to canonical issue attribute. -/
def bzAtMapping : String → Option String
  | "assigned_to_detail" => some "assignee_id"
  | "blocks" => some "issue_links"
  | "component" => some "components"
  | "creation_time" => some "created_at"
  | "creator_detail" => some "creator_id"
  | "depends_on" => some "issue_links"
  | "dupe_of" => some "issue_links"
  | "keywords" => some "labels"
  | "last_change_time" => some "updated_at"
  | "op_sys" => some "environment"
  | "platform" => some "platform"
  | "resolution" => some "resolution"
  | "severity" => some "priority"
  | "status" => some "status"
  | "summary" => some "title"
  | "target_milestone" => some "fix_versions"
  | "version" => some "affects_versions"
  | _ => none

/-- The `at_mapping` dict of `bugzilla.BugzillaBackend.__init__`: the same
table plus the newer `type` entry. -/
def bzAtMappingNew (n : String) : Option String :=
  if n = "type" then some "issue_type" else bzAtMapping n

/-- The `at_mapping` dict of `JiraBackend.__init__`. -/
def jiraAtMapping : String → Option String
  | "summary" => some "title"
  | "description" => some "desc"
  | "created" => some "created_at"
  | "updated" => some "updated_at"
  | "creator" => some "creator_id"
  | "reporter" => some "reporter_id"
  | "issuetype" => some "issue_type"
  | "priority" => some "priority"
  | "status" => some "status"
  | "versions" => some "affects_versions"
  | "components" => some "components"
  | "labels" => some "labels"
  | "resolution" => some "resolution"
  | "fixVersions" => some "fix_versions"
  | "assignee" => some "assignee_id"
  | "issuelinks" => some "issue_links"
  | "parent" => some "parent_issue_id"
  | "timeoriginalestimate" => some "original_time_estimate"
  | "environment" => some "environment"
  | _ => none

/-- The `terminology_mapping` dict of `JiraBackend._process_event`: history
field names back to the live-issue raw field names. -/
def jiraTerminologyMapping : String → Option String
  | "Component" => some "components"
  | "Link" => some "issuelinks"
  | "Fix Version" => some "fixVersions"
  | _ => none

/-- The `type_mapping` dict shared by the Bugzilla link code
(`_parse_issue_links`, `_set_back_issue_links`). -/
def bzTypeMapping : String → Option String
  | "blocks" => some "Blocker"
  | "dupe_of" => some "Duplicate"
  | "depends_on" => some "Dependent"
  | _ => none

/-- The `effect_mapping` dict of `bugzilla.BugzillaBackend._parse_issue_links`. -/
def bzEffectMapping : String → Option String
  | "blocks" => some "blocks"
  | "dupe_of" => some "duplicates"
  | "depends_on" => some "depends on"
  | _ => none

/-- Python `del l[i]` for a non-negative index: `IndexError` when `i` is out
of range. -/
def pyDelIdx {α : Type} (l : List α) (i : Nat) : Except String (List α) :=
  if i < l.length then .ok (l.eraseIdx i) else .error "IndexError"

/-- One comparison of the `found_index` loop in
`JiraBackend._set_back_issue_links`:
`stored['issue_id'] == issue_id and stored['effect'].lower() == link_effect.lower()
and stored['type'].lower() == link_type.lower()`.  Conjuncts are evaluated
left to right; `.lower()` on a `None` raises `AttributeError`. -/
def jiraLinkMatch (stored : StoredLink) (issueId : Nat)
    (ltype effect : Option String) : Except String Bool :=
  if stored.issue_id = issueId then
    match stored.effect, effect, stored.ltype, ltype with
    | some se, some e, some st, some t =>
        .ok (se.toLower = e.toLower ∧ st.toLower = t.toLower : Bool)
    | _, _, _, _ => .error "AttributeError"
  else .ok false

/-- The `found_index` loop of `JiraBackend._set_back_issue_links`: index of
the first matching stored link, or the list's length when none matches
(Python leaves `found_index` at `len(item_list)`). -/
def jiraFindLinkIdx (issueId : Nat) (ltype effect : Option String) :
    List StoredLink → Except String Nat
  | [] => .ok 0
  | s :: rest => do
    let m ← jiraLinkMatch s issueId ltype effect
    if m then .ok 0
    else do
      let i ← jiraFindLinkIdx issueId ltype effect rest
      .ok (i + 1)

/-- The `already_in_list` loop of `JiraBackend._set_back_issue_links`: the
loop has no `break`, so every element is compared (and any comparison may
raise). -/
def jiraLinkAlreadyIn (issueId : Nat) (ltype effect : Option String) :
    List StoredLink → Except String Bool
  | [] => .ok false
  | s :: rest => do
    let m ← jiraLinkMatch s issueId ltype effect
    let r ← jiraLinkAlreadyIn issueId ltype effect rest
    .ok (m || r)

/-- The keyword classification step of `JiraBackend._set_back_issue_links`:
`self._get_issue_link_type_and_effect(getattr(jira_event, 'toString'))`.
Running the classifier on Python `None` raises `TypeError`
(`"..." in None`). -/
def jiraClassify (msg : Option String) : Except String (Option (String × String)) :=
  match msg with
  | none => .error "TypeError"
  | some s => .ok (getIssueLinkTypeAndEffect s)

/-- `JiraBackend._set_back_issue_links` (src/issueshark/backends/jirabackend.py):
`to`/`from` are `getattr(jira_event, 'to')` / `getattr(jira_event, 'from')`
(issue keys), `toString`/`fromString` the link phrases.  Everything added in
the event is deleted from the link list — with an unguarded
`del item_list[found_index]` — and everything the event started from is
re-added when absent.  `resolve` models `_get_issue_id_by_system_id`
(with `refresh_key=True`). -/
def jiraSetBackIssueLinks (resolve : String → Nat) (itemList : List StoredLink)
    (toV fromV toStr fromStr : Option String) : Except String (List StoredLink) := do
  let l1 ←
    if (toV.getD "") ≠ "" then do
      let issueId := resolve (toV.getD "")
      let c ← jiraClassify toStr
      let ltype := c.map (fun p => p.1)
      let effect := c.map (fun p => p.2)
      let idx ← jiraFindLinkIdx issueId ltype effect itemList
      pyDelIdx itemList idx
    else .ok itemList
  if (fromV.getD "") ≠ "" then do
    let issueId := resolve (fromV.getD "")
    let c ← jiraClassify fromStr
    let ltype := c.map (fun p => p.1)
    let effect := c.map (fun p => p.2)
    let already ← jiraLinkAlreadyIn issueId ltype effect l1
    if already then .ok l1
    else .ok (l1 ++ [{ issue_id := issueId, ltype := ltype, effect := effect }])
  else .ok l1

/-- The "added must be removed" block of
`bugzilla_old.BugzillaBackend._set_back_issue_links`: the `found_index`
loop matches on `issue_id` alone and the `del` is wrapped in
`try ... except IndexError`, which logs a warning and leaves the list
unchanged. -/
def bzOldDelAddedLink (l : List StoredLink) (issueId : Nat) : List StoredLink :=
  match l.findIdx? (fun s => s.issue_id = issueId) with
  | some i => l.eraseIdx i
  | none => l

/-- `bugzilla_old.BugzillaBackend._set_back_issue_links`: everything in
`removed` is re-added (when its issue id is absent), everything in `added`
is deleted via `bzOldDelAddedLink`.  `type_mapping[field_name]` raises
`KeyError` for an unknown field name. -/
def bzOldSetBackIssueLinks (resolve : String → Nat) (itemList : List StoredLink)
    (fieldName removed added : String) : Except String (List StoredLink) := do
  let l1 ←
    if removed ≠ "" then
      let issueId := resolve removed
      if (itemList.map (fun s => s.issue_id)).contains issueId then .ok itemList
      else
        match bzTypeMapping fieldName with
        | some t => .ok (itemList ++ [{ issue_id := issueId, ltype := some t,
                                        effect := some fieldName }])
        | none => .error "KeyError"
    else .ok itemList
  if added ≠ "" then .ok (bzOldDelAddedLink l1 (resolve added))
  else .ok l1

/-- One raw Bugzilla change item (`bz_event` in the sources): the dict
`{'field_name': ..., 'removed': ..., 'added': ...}`.  Values are plain
strings; `""` is Python-falsy. -/
structure BzRawEvent where
  field_name : String
  removed : String
  added : String
deriving DecidableEq

/-- One raw Jira changelog item (`jira_event` in the sources).  `field` is
`jira_event.field`; `fromV`/`toV` model `getattr(jira_event, 'from')` /
`'to'` and `fromStr`/`toStr` model `fromString`/`toString`. -/
structure JiraRawEvent where
  field : String
  fromV : Option String := none
  toV : Option String := none
  fromStr : Option String := none
  toStr : Option String := none
deriving DecidableEq

/-- A stored `Event`/`IssueEvent` document. -/
structure StoredEvent where
  external_id : String
  issue_id : Nat
  created_at : String
  author_id : Option Nat
  status : String := ""
  old_value : Option EvValue := none
  new_value : Option EvValue := none
deriving DecidableEq

/-- `bugzilla_old.BugzillaBackend._set_back_mongo_issue`: dispatch through
`function_mapping`; an attribute outside the mapping raises `KeyError`.
The branches inline `_set_back_string_field` (attribute := `removed`),
`_set_back_priority`, `_set_back_array_field`, `_set_back_assignee` and
`_set_back_issue_links`.  `people` models `_get_people`. -/
def bzOldSetBackMongoIssue (resolve people : String → Nat) (i : MongoIssue)
    (atName : String) (ev : BzRawEvent) : Except String MongoIssue :=
  match atName with
  | "title" => .ok { i with title := some ev.removed }
  | "priority" =>
      .ok { i with
              issue_type := if ev.removed = "enhancement" then some "Enhancement"
                            else some "Bug",
              priority := some ev.removed }
  | "status" => .ok { i with status := some ev.removed }
  | "affects_versions" =>
      .ok { i with affects_versions :=
              bzOldSetBackArrayField i.affects_versions ev.removed ev.added }
  | "components" =>
      .ok { i with components :=
              bzOldSetBackArrayField i.components ev.removed ev.added }
  | "labels" =>
      .ok { i with labels := bzOldSetBackArrayField i.labels ev.removed ev.added }
  | "resolution" => .ok { i with resolution := some ev.removed }
  | "fix_versions" =>
      .ok { i with fix_versions :=
              bzOldSetBackArrayField i.fix_versions ev.removed ev.added }
  | "assignee_id" =>
      .ok { i with assignee_id :=
              if ev.removed ≠ "" then some (people ev.removed) else none }
  | "issue_links" =>
      (bzOldSetBackIssueLinks resolve i.issue_links ev.field_name ev.removed
        ev.added).map (fun l => { i with issue_links := l })
  | "environment" => .ok { i with environment := some ev.removed }
  | "platform" => .ok { i with platform := some ev.removed }
  | _ => .error "KeyError"

/-- `bugzilla_old.BugzillaBackend._process_event`: look the event up by
`(external_id, issue_id)` (a hit keeps the stored document and clears
`is_new_event`, but processing continues), map the raw field name through
`at_mapping` (an unmapped name is kept raw after a warning), then either
reverse-apply — `new_value` is the attribute before, `old_value` the
attribute after the set-back — or fall back to the raw `added`/`removed`
strings. -/
def bzOldProcessEvent (store : List StoredEvent) (resolve people : String → Nat)
    (uid : String) (ev : BzRawEvent) (issue : MongoIssue) (changeDate : String)
    (authorId : Nat) : Except String (StoredEvent × Bool × MongoIssue) :=
  let found := store.find? (fun e => e.external_id = uid ∧ e.issue_id = issue.mid)
  let ev0 : StoredEvent :=
    match found with
    | some e0 => e0
    | none => { external_id := uid, issue_id := issue.mid, created_at := changeDate,
                author_id := some authorId }
  let isNew := found.isNone
  let bzAtName := if ev.field_name = "assigned_to" then "assigned_to_detail"
                  else ev.field_name
  let status := (bzAtMapping bzAtName).getD bzAtName
  if mongoIssueHasAttr issue status then do
    let newVal := mongoIssueGet issue status
    let issue' ← bzOldSetBackMongoIssue resolve people issue status ev
    let oldVal := mongoIssueGet issue' status
    .ok ({ ev0 with
            status := status, new_value := newVal, old_value := oldVal },
         isNew, issue')
  else
    .ok ({ ev0 with
            status := status, new_value := some (.s ev.added),
            old_value := some (.s ev.removed) },
         isNew, issue)

/-- `bugzilla.BugzillaBackend._process_event` (the current Bugzilla backend):
an existing `(external_id, issue_id)` event returns immediately with
`is_new_event = False`; a new one maps the field name through the newer
`at_mapping` and fills `old_value`/`new_value` from `removed`/`added`
(resolving People for `assignee_id` and link dicts for
`depends_on`/`blocks`).  The issue itself is never mutated. -/
def bzProcessEvent (store : List StoredEvent) (resolve people : String → Nat)
    (uid : String) (ev : BzRawEvent) (issueMid : Nat) (changeDate : String)
    (authorId : Nat) : StoredEvent × Bool :=
  match store.find? (fun e => e.external_id = uid ∧ e.issue_id = issueMid) with
  | some e0 => (e0, false)
  | none =>
    let base : StoredEvent :=
      { external_id := uid, issue_id := issueMid, created_at := changeDate,
        author_id := some authorId }
    let bzAtName := if ev.field_name = "assigned_to" then "assigned_to_detail"
                    else ev.field_name
    let status := (bzAtMappingNew bzAtName).getD bzAtName
    let base := { base with status := status }
    if status = "assignee_id" then
      ({ base with
          new_value := if ev.added ≠ "" then some (.person (people ev.added)) else none,
          old_value := if ev.removed ≠ "" then some (.person (people ev.removed)) else none },
       true)
    else if ev.field_name = "depends_on" then
      ({ base with
          new_value := if ev.added ≠ "" then
              some (.link { issue_id := resolve ev.added, ltype := some "Dependent",
                            effect := some "depends on" }) else none,
          old_value := if ev.removed ≠ "" then
              some (.link { issue_id := resolve ev.removed, ltype := some "Dependent",
                            effect := some "depends on" }) else none },
       true)
    else if ev.field_name = "blocks" then
      ({ base with
          new_value := if ev.added ≠ "" then
              some (.link { issue_id := resolve ev.added, ltype := some "Blocker",
                            effect := some "blocks" }) else none,
          old_value := if ev.removed ≠ "" then
              some (.link { issue_id := resolve ev.removed, ltype := some "Blocker",
                            effect := some "blocks" }) else none },
       true)
    else
      ({ base with
          new_value := if ev.added ≠ "" then some (.s ev.added) else none,
          old_value := if ev.removed ≠ "" then some (.s ev.removed) else none },
       true)

/-- `JiraBackend._set_back_mongo_issue`: dispatch through
`function_mapping`; an attribute outside the mapping raises `KeyError`.
String fields are set to `fromString` (`_set_back_string_field`); array
fields go through `_set_back_array_field`; `assignee_id` /
`parent_issue_id` resolve `getattr(jira_event, 'from')` (or become `None`);
`issue_links` goes through `_set_back_issue_links`. -/
def jiraSetBackMongoIssue (resolve people : String → Nat) (i : MongoIssue)
    (atName : String) (ev : JiraRawEvent) : Except String MongoIssue :=
  match atName with
  | "title" => .ok { i with title := ev.fromStr }
  | "desc" => .ok { i with desc := ev.fromStr }
  | "issue_type" => .ok { i with issue_type := ev.fromStr }
  | "priority" => .ok { i with priority := ev.fromStr }
  | "status" => .ok { i with status := ev.fromStr }
  | "affects_versions" =>
      (jiraSetBackArrayField i.affects_versions ev.fromStr ev.toStr).map
        (fun l => { i with affects_versions := l })
  | "components" =>
      (jiraSetBackArrayField i.components ev.fromStr ev.toStr).map
        (fun l => { i with components := l })
  | "labels" =>
      (jiraSetBackArrayField i.labels ev.fromStr ev.toStr).map
        (fun l => { i with labels := l })
  | "resolution" => .ok { i with resolution := ev.fromStr }
  | "fix_versions" =>
      (jiraSetBackArrayField i.fix_versions ev.fromStr ev.toStr).map
        (fun l => { i with fix_versions := l })
  | "assignee_id" => .ok { i with assignee_id := ev.fromV.map people }
  | "issue_links" =>
      (jiraSetBackIssueLinks resolve i.issue_links ev.toV ev.fromV ev.toStr
        ev.fromStr).map (fun l => { i with issue_links := l })
  | "parent_issue_id" => .ok { i with parent_issue_id := ev.fromV.map resolve }
  | "original_time_estimate" => .ok { i with original_time_estimate := ev.fromStr }
  | "environment" => .ok { i with environment := ev.fromStr }
  | _ => .error "KeyError"

/-- `JiraBackend._process_event`: look the event up by
`(external_id, issue_id)` (a hit keeps the stored document and clears
`newly_created`, but processing continues), translate the history field
name through `terminology_mapping` then `at_mapping` (an unmapped name is
kept raw after a warning); when the issue has the attribute, reverse-apply
(`new_value` before the set-back, `old_value` after), otherwise use
`toString`/`fromString` verbatim. -/
def jiraProcessEvent (store : List StoredEvent) (resolve people : String → Nat)
    (createdAt : String) (authorId : Option Nat) (ev : JiraRawEvent)
    (uid : String) (issue : MongoIssue) :
    Except String (StoredEvent × Bool × MongoIssue) :=
  let found := store.find? (fun e => e.external_id = uid ∧ e.issue_id = issue.mid)
  let ev0 : StoredEvent :=
    match found with
    | some e0 => e0
    | none => { external_id := uid, issue_id := issue.mid, created_at := createdAt,
                author_id := authorId }
  let isNew := found.isNone
  let bzAtName := (jiraTerminologyMapping ev.field).getD ev.field
  let status := (jiraAtMapping bzAtName).getD bzAtName
  if mongoIssueHasAttr issue status then do
    let newVal := mongoIssueGet issue status
    let issue' ← jiraSetBackMongoIssue resolve people issue status ev
    let oldVal := mongoIssueGet issue' status
    .ok ({ ev0 with
            status := status, new_value := newVal, old_value := oldVal },
         isNew, issue')
  else
    .ok ({ ev0 with
            status := status, new_value := ev.toStr.map .s,
            old_value := ev.fromStr.map .s },
         isNew, issue)

/-- One entry of `issue.changelog.histories`.  `hid` is `history.id`,
`created` the raw date string, `authorId` the already-resolved author
(`None` when the history has no author, e.g. ZOOKEEPER-2218). -/
structure JiraHistory where
  hid : String
  created : String
  authorId : Option Nat := none
  items : List JiraRawEvent
deriving DecidableEq

/-- The inner loop of `JiraBackend._process_issue`: walk the (already
reversed) items of one history, numbering them `i = 0, 1, ...` to build
`unique_event_id = str(history.id) + "%%" + str(i)`, reverse-applying each
and collecting the events whose `newly_created` flag is set. -/
def jiraWalkItems (store : List StoredEvent) (resolve people : String → Nat)
    (createdAt : String) (authorId : Option Nat) (hid : String) :
    List JiraRawEvent → Nat → MongoIssue → List StoredEvent →
    Except String (MongoIssue × List StoredEvent)
  | [], _, issue, acc => .ok (issue, acc)
  | it :: rest, i, issue, acc => do
    let uid := hid ++ "%%" ++ toString i
    let r ← jiraProcessEvent store resolve people createdAt authorId it uid issue
    jiraWalkItems store resolve people createdAt authorId hid rest (i + 1) r.2.2
      (if r.2.1 then acc ++ [r.1] else acc)

/-- The history loop of `JiraBackend._process_issue`:
`for history in reversed(issue.changelog.histories)` with
`for jira_event in reversed(history.items)` inside; the caller passes the
histories already reversed (oldest first). -/
def jiraWalkHistories (store : List StoredEvent) (resolve people : String → Nat) :
    List JiraHistory → MongoIssue → List StoredEvent →
    Except String (MongoIssue × List StoredEvent)
  | [], issue, acc => .ok (issue, acc)
  | h :: rest, issue, acc => do
    let r ← jiraWalkItems store resolve people h.created h.authorId h.hid
              h.items.reverse 0 issue acc
    jiraWalkHistories store resolve people rest r.1 r.2

/-- The event-walking tail of `JiraBackend._process_issue`: after the full
history walk the source does `mongo_issue.status = 'Open'` ("We need to set
the status to open here, as this is the first status for every issue") and
saves the issue; the collected new events are bulk-inserted.  Returns the
issue as saved together with the events to insert. -/
def jiraProcessIssue (store : List StoredEvent) (resolve people : String → Nat)
    (snapshot : MongoIssue) (histories : List JiraHistory) :
    Except String (MongoIssue × List StoredEvent) := do
  let r ← jiraWalkHistories store resolve people histories.reverse snapshot []
  .ok ({ r.1 with status := some "Open" }, r.2)

/-- One entry of a Bugzilla issue history (`history` in
`BugzillaBackend._store_events`): `when` is the raw date string, `who` the
author's username, `changes` the raw change items. -/
structure BzHistory where
  hwhen : String
  who : String
  changes : List BzRawEvent
deriving DecidableEq

/-- The inner loop of `bugzilla.BugzillaBackend._store_events`: walk one
history's changes numbering them `i = 0, 1, ...` (`j` stays fixed), with
`unique_event_id = str(issue['id']) + "%%" + str(i) + "%%" + str(j)`;
collect the events whose `is_new_event` flag is set. -/
def bzChangesToInsert (store : List StoredEvent) (resolve people : String → Nat)
    (rawIssueId : String) (issueMid : Nat) (changeDate : String) (authorId : Nat)
    (j : Nat) : List BzRawEvent → Nat → List StoredEvent
  | [], _ => []
  | ev :: rest, i =>
    let uid := rawIssueId ++ "%%" ++ toString i ++ "%%" ++ toString j
    let r := bzProcessEvent store resolve people uid ev issueMid changeDate authorId
    (if r.2 then [r.1] else []) ++
      bzChangesToInsert store resolve people rawIssueId issueMid changeDate
        authorId j rest (i + 1)

/-- The outer loop of `bugzilla.BugzillaBackend._store_events`: the
histories are numbered `j = 0, 1, ...`; the resulting list is
`events_to_insert`, which the source bulk-inserts when non-empty. -/
def bzStoreEvents (store : List StoredEvent) (resolve people : String → Nat)
    (rawIssueId : String) (issueMid : Nat) :
    List BzHistory → Nat → List StoredEvent
  | [], _ => []
  | h :: rest, j =>
    bzChangesToInsert store resolve people rawIssueId issueMid h.hwhen
        (people h.who) j h.changes 0 ++
      bzStoreEvents store resolve people rawIssueId issueMid rest (j + 1)

/-- A stored `IssueComment` document. -/
structure StoredComment where
  external_id : String
  issue_id : Nat
  created_at : String
  author_id : Nat
  comment : String
deriving DecidableEq

/-- One raw Bugzilla comment (`comment` in
`BugzillaBackend._process_comments`). -/
structure BzRawComment where
  count : Nat
  creation_time : String
  creator : String
  text : String
deriving DecidableEq

/-- `bugzilla.BugzillaBackend._process_comments`: the comment with
`count == 0` is the issue description and is skipped; the remaining
comments are numbered `i = 0, 1, ...` to build
`unique_comment_id = "%s%%%s" % (mongo_issue_id, i)`; a comment already
stored under `(external_id, issue_id)` is skipped, the rest become
`comments_to_insert` (bulk-inserted by the source when non-empty). -/
def bzProcessComments (store : List StoredComment) (people : String → Nat)
    (issueMid : Nat) : List BzRawComment → Nat → List StoredComment
  | [], _ => []
  | c :: rest, i =>
    if c.count = 0 then bzProcessComments store people issueMid rest i
    else
      let uid := toString issueMid ++ "%%" ++ toString i
      let existing :=
        store.find? (fun sc => sc.external_id = uid ∧ sc.issue_id = issueMid)
      (match existing with
       | some _ => []
       | none => [{ external_id := uid, issue_id := issueMid,
                    created_at := c.creation_time, author_id := people c.creator,
                    comment := c.text : StoredComment }]) ++
        bzProcessComments store people issueMid rest (i + 1)

/-- The value of a Bugzilla link field (`bz_issue[at_name_bz]`): `blocks`
and `depends_on` are lists of bug numbers, `dupe_of` a nullable scalar. -/
inductive BzLinkField where
  | list (vals : List Nat)
  | scalar (v : Option Nat)
deriving DecidableEq

/-- `bugzilla.BugzillaBackend._parse_issue_links`: every raw link becomes a
dict `{'issue_id': resolved id, 'type': type_mapping[name],
'effect': effect_mapping[name]}`.  `resolve` models
`_get_issue_id_by_system_id` (which is called on `str(link)`); an unknown
field name raises `KeyError`.  No link is filtered out: there is no
self-reference check. -/
def bzParseIssueLinks (resolve : String → Nat) (atName : String)
    (v : BzLinkField) : Except String (List StoredLink) :=
  match bzTypeMapping atName, bzEffectMapping atName with
  | some t, some e =>
    match v with
    | .list vals =>
        .ok (vals.map (fun link =>
          { issue_id := resolve (toString link), ltype := some t, effect := some e }))
    | .scalar none => .ok []
    | .scalar (some link) =>
        .ok [{ issue_id := resolve (toString link), ltype := some t, effect := some e }]
  | _, _ => .error "KeyError"

/-- First occurrence of each `issue_id` key, in order. -/
def linkKeysInOrder : List StoredLink → List Nat
  | [] => []
  | l :: rest => l.issue_id :: (linkKeysInOrder rest).filter (fun k => k ≠ l.issue_id)

/-- The `issue_links` merge in `_transform_issue` / `_transform_jira_issue`:
`list({v['issue_id']: v for v in current_value}.values())` — keys keep the
order of their first occurrence, the value for a key is its last
occurrence. -/
def dedupLinksByIssueId (l : List StoredLink) : List StoredLink :=
  (linkKeysInOrder l).filterMap (fun k => l.reverse.find? (fun s => s.issue_id = k))

/-- The list-valued branch of `_transform_issue` for `issue_links`: the
freshly parsed links are appended to the current value and deduplicated by
`issue_id` (when the combined list is non-empty). -/
def mergeIssueLinks (current result : List StoredLink) : List StoredLink :=
  let combined := current ++ result
  if combined.length > 0 then dedupLinksByIssueId combined else combined

/-- A field value of a `to_mongo().to_dict()` document as the Diff Detector
compares them: a scalar (string / id / null rendered as a string tag) or a
list of strings. -/
inductive FVal where
  | s (v : String)
  | l (vs : List String)
deriving DecidableEq

/-- A persisted document rendered as a dict: field name to value. -/
def MongoDict := List (String × FVal)

/-- Value comparison under DeepDiff's `ignore_order=True`: list values are
equal up to permutation, everything else is compared structurally; a field
present on one side only is a difference. -/
def fvalMatch : Option FVal → Option FVal → Bool
  | some (.l a), some (.l b) => a.isPerm b
  | x, y => x = y

/-- The keys occurring in either document. -/
def dictKeys (o n : MongoDict) : List String :=
  o.map (fun p => p.1) ++ n.map (fun p => p.1)

/-- `DeepDiff(t1=old, t2=new, exclude_paths=ex, ignore_order=True)` is
non-empty: some key outside the exclusion set on which the two dicts
disagree (lists up to permutation).  The source's exclusion paths
`"root['f']"` are modelled by the field name `f`. -/
def deepDiffNonEmpty (o n : MongoDict) (ex : List String) : Bool :=
  (dictKeys o n).any (fun k =>
    ¬ ex.contains k ∧ ¬ fvalMatch (o.lookup k) (n.lookup k))

/-- `BaseBackend.check_diff` (src/issueshark/backends/basebackend.py): when
no previously persisted counterpart exists (`if old:` is false) the result
is "changed" unconditionally; otherwise the two `to_mongo().to_dict()`
renderings are compared with DeepDiff, excluding `ex_path + ['_id']` and
ignoring order.  The returned Bool is whether this comparison reports a
difference (the source then latches `issues_diff[issue_id] = True`). -/
def checkDiff (old : Option MongoDict) (new : MongoDict) (exPath : List String) :
    Bool :=
  match old with
  | none => true
  | some o => deepDiffNonEmpty o new (exPath ++ ["_id"])

/-- `BaseBackend.check_diff_issue`: Issues are compared excluding
`issue_system_ids` (the tracker-generation set), `issue_links` and
`parent_issue_id`. -/
def checkDiffIssue (old : Option MongoDict) (new : MongoDict) : Bool :=
  checkDiff old new ["issue_system_ids", "issue_links", "parent_issue_id"]

/-- `BaseBackend.check_diff_comment_event`: Comments/Events are compared
excluding `issue_id`, `old_value` and `new_value`. -/
def checkDiffCommentEvent (old : Option MongoDict) (new : MongoDict) : Bool :=
  checkDiff old new ["issue_id", "old_value", "new_value"]

/-- The `Issue` document as `BaseBackend.save_issues` handles it (the shape
`GithubBackend.store_issue` builds): note the `issue_system_ids` list of
tracker-generation ids. -/
structure StIssue where
  external_id : String := ""
  issue_system_ids : List Nat := []
  title : Option String := none
  desc : Option String := none
  status : Option String := none
  labels : List String := []
  reporter_id : Option Nat := none
  creator_id : Option Nat := none
  assignee_id : Option Nat := none
  created_at : Option String := none
  updated_at : Option String := none
  is_pull_request : Bool := false
deriving DecidableEq

/-- A write performed by `BaseBackend.save_issues`: saving an issue
document, or saving one of an issue's accumulated comment/event documents
(identified here by the owning issue key and the item key). -/
inductive SaveAction where
  | issue (doc : StIssue)
  | comment (issueKey itemKey : String)
  | event (issueKey itemKey : String)
deriving DecidableEq

/-- The per-run backend state that `BaseBackend.save_issues` reads:
`parsed_issues` (with its `comments` and `events` sub-dicts keyed by issue
then item), `issues_diff` and `old_issues`, plus the run's
`issue_system_id`. -/
structure RunState where
  issueSystemId : Nat
  parsedIssues : List (String × StIssue)
  parsedComments : List (String × List String)
  parsedEvents : List (String × List String)
  issuesDiff : List (String × Bool)
  oldIssues : List (String × StIssue)

/-- The body of `BaseBackend.save_issues` for one entry of
`parsed_issues['issues']`: if `issue_id in issues_diff and
issues_diff[issue_id]`, the fresh issue and its comments and events are
saved; otherwise the *old* issue gets the current generation id appended to
`issue_system_ids` and is saved (a missing `old_issues` entry raises
`KeyError`). -/
def saveOneIssue (st : RunState) (issueId : String) (issue : StIssue) :
    Except String (List SaveAction) :=
  if (st.issuesDiff.lookup issueId).getD false then
    .ok ([SaveAction.issue issue] ++
      ((st.parsedComments.lookup issueId).getD []).map (SaveAction.comment issueId) ++
      ((st.parsedEvents.lookup issueId).getD []).map (SaveAction.event issueId))
  else
    match st.oldIssues.lookup issueId with
    | some old =>
        .ok [SaveAction.issue
              { old with issue_system_ids := old.issue_system_ids ++ [st.issueSystemId] }]
    | none => .error "KeyError"

/-- `BaseBackend.save_issues`: iterate over `parsed_issues['issues']`,
concatenating each entry's writes. -/
def saveIssues (st : RunState) : List (String × StIssue) →
    Except String (List SaveAction)
  | [] => .ok []
  | (iid, issue) :: rest => do
    let a ← saveOneIssue st iid issue
    let b ← saveIssues st rest
    .ok (a ++ b)

/-- A `People` document.  `name` is `Option` because the Bugzilla fallback
can query with `name=None`. -/
structure Person where
  name : Option String
  email : String
  username : String
deriving DecidableEq

/-- The per-run people state: the backend's `self.people` username cache
and the persisted `People` collection (a document's ObjectId is its index
in the list). -/
structure PeopleState where
  cache : List (String × Nat)
  store : List Person

/-- `People.objects(name=..., email=...).upsert_one(name=..., email=...,
username=...)`: the first document matching `(name, email)` is updated
(username overwritten) and returned, otherwise a new document is inserted;
the result is its ObjectId. -/
def upsertOnePerson (store : List Person) (name : Option String)
    (email username : String) : Nat × List Person :=
  match store.findIdx? (fun p => p.name = name ∧ p.email = email) with
  | some i => (i, store.set i { name := name, email := email, username := username })
  | none => (store.length, store ++ [{ name := name, email := email,
                                       username := username }])

/-- The e-mail de-obfuscation in `_get_people`:
`email.replace(' at ', '@').replace(' dot ', '.')`. -/
def normalizeEmail (email : String) : String :=
  pyReplace (pyReplace email " at " "@") " dot " "."

/-- `JiraBackend._get_people` (src/issueshark/backends/jirabackend.py): a
username already in `self.people` short-circuits; with neither e-mail nor
name given the user is fetched from the tracker (`fetch` models
`_get_user`, returning `(emailAddress, displayName)`); `.replace` on a
`None` e-mail raises `AttributeError`; finally the person is upserted by
`(name, email)` and cached under the username. -/
def jiraGetPeople (st : PeopleState) (fetch : String → String × String)
    (username : String) (email name : Option String) :
    Except String (Nat × PeopleState) :=
  match st.cache.lookup username with
  | some pid => .ok (pid, st)
  | none =>
    let en : Option String × Option String :=
      match email, name with
      | none, none => let u := fetch username; (some u.1, some u.2)
      | e, n => (e, n)
    match en.1 with
    | none => .error "AttributeError"
    | some e =>
      let e := normalizeEmail e
      let r := upsertOnePerson st.store en.2 e username
      .ok (r.1, { cache := st.cache ++ [(username, r.1)], store := r.2 })

/-- One raw Jira issue link (`issue_link` in
`JiraBackend._parse_issue_links`): a link object carries either an
`outwardIssue` or an `inwardIssue` key, plus its `type`'s name and
outward/inward phrases. -/
structure JiraRawLink where
  outwardKey : Option String := none
  inwardKey : String := ""
  typeName : String
  typeOutward : String
  typeInward : String
deriving DecidableEq

/-- `JiraBackend._parse_issue_links` (src/issueshark/backends/jirabackend.py):
every raw link becomes a dict `{'issue_id': resolved key, 'type': type
name, 'effect': outward/inward phrase}`; no link is filtered out (there is
no self-reference check). -/
def jiraParseIssueLinks (resolve : String → Nat) (links : List JiraRawLink) :
    List StoredLink :=
  links.map (fun lk =>
    match lk.outwardKey with
    | some k => { issue_id := resolve k, ltype := some lk.typeName,
                  effect := some lk.typeOutward }
    | none => { issue_id := resolve lk.inwardKey, ltype := some lk.typeName,
                effect := some lk.typeInward })

/-- The in-progress issue of the C2 scenario: the live snapshot holds
status "UNCONFIRMED" when the newest-first walk reaches the history entry
that changed status from "NEW" to "UNCONFIRMED". -/
def c2Issue : MongoIssue :=
  { mid := 1, external_id := "95", status := some "UNCONFIRMED" }

/-- Concrete issue-reference resolver for the C9 scenario: the issue with
external id "95" has store ObjectId 7 (`_get_issue_id_by_system_id("95")`
returns the issue's own document id). -/
def c9Resolve : String → Nat := fun sid => if sid = "95" then 7 else 0

/-- Concrete stored event for the C1 witness: the event key
`("95%%0%%0", issue 1)` is already in the store. -/
def c1Event : StoredEvent :=
  { external_id := "95%%0%%0", issue_id := 1,
    created_at := "2001-02-03 17:48:45", author_id := some 3 }

/-- Concrete raw Bugzilla change item for the C1 witness. -/
def c1RawEvent : BzRawEvent :=
  { field_name := "status", removed := "NEW", added := "UNCONFIRMED" }

/-- Concrete raw Jira changelog item for the C1 witness. -/
def c1JiraRaw : JiraRawEvent :=
  { field := "status", fromStr := some "Reopened", toStr := some "Resolved" }

/-- Concrete one-entry history list for the C1 witness. -/
def c1Histories : List BzHistory :=
  [{ hwhen := "2001-02-03 17:48:45", who := "craig", changes := [c1RawEvent] }]

/-- Concrete stored comment for the C1 witness (key `("1%%0", issue 1)`). -/
def c1Comment : StoredComment :=
  { external_id := "1%%0", issue_id := 1, created_at := "t", author_id := 5,
    comment := "body" }

/-- Concrete raw comment list for the C1 witness: the description
(`count = 0`) plus one real comment. -/
def c1RawComments : List BzRawComment :=
  [{ count := 0, creation_time := "t0", creator := "c0", text := "desc" },
   { count := 1, creation_time := "t", creator := "c", text := "body" }]

/-- C4: classifying the link phrase "is blocked by DRILL-5" with the keyword
classifier yields type "Blocker" and effect "is blocked by", never effect
"blocks": the ordered phrase list is evaluated top-to-bottom with
first-match-wins, so the multi-word phrase "is blocked by" is matched
before the later "issue blocks" row. -/
theorem claim_C4 :
    getIssueLinkTypeAndEffect "is blocked by DRILL-5" =
      some ("Blocker", "is blocked by") ∧
    getIssueLinkTypeAndEffect "is blocked by DRILL-5" ≠
      some ("Blocker", "blocks") := by
  constructor
  · rfl
  · intro h
    have h1 : getIssueLinkTypeAndEffect "is blocked by DRILL-5" =
        some ("Blocker", "is blocked by") := rfl
    rw [h1] at h
    simp at h

/-- C3 counterexample: the claim asserts the specification's array
reverse-apply rule for the Jira implementation too, but
`JiraBackend._set_back_array_field` appends a to-be-re-added value even when
it is already present: reverse-applying `fromString="85"`, `toString=None`
to the list `["85"]` yields `["85", "85"]`, while the claimed rule
("appended only if absent") yields `["85"]`. -/
theorem claim_C3_cex :
    jiraSetBackArrayField ["85"] (some "85") none = .ok ["85", "85"] ∧
    specSetBackArrayField ["85"] "85" "" = ["85"] ∧
    (Except.ok ["85", "85"] : Except String (List String)) ≠ .ok ["85"] := by
  refine ⟨rfl, rfl, ?_⟩
  intro h
  simp at h

/-- C3 (amended): the Bugzilla reverse-apply
(`bugzilla_old.BugzillaBackend._set_back_array_field`, used for every
array-valued canonical field: affects_versions, components, labels,
fix_versions) agrees with the specification's rule on every input —
removing a value removes it if present and otherwise clears the whole set,
and a `removed` value is appended only if absent.  The Jira implementation
deviates (see the counterexample). -/
theorem claim_C3 :
    ∀ (itemList : List String) (removed added : String),
      bzOldSetBackArrayField itemList removed added =
        specSetBackArrayField itemList removed added := by
  intro l r a
  unfold bzOldSetBackArrayField specSetBackArrayField
  by_cases ha : a = "" <;> by_cases hr : r = "" <;>
    simp only [ha, hr, if_true, if_false, ite_true, ite_false, ne_eq,
      not_true_eq_false, not_false_eq_true] <;>
    split_ifs <;> simp_all

/-- The `found_index` loop leaves the index at the list's length when no
stored link matches. -/
theorem jiraFindLinkIdx_eq_length (issueId : Nat) (lt le : Option String) :
    ∀ (l : List StoredLink),
      (∀ s ∈ l, jiraLinkMatch s issueId lt le = .ok false) →
      jiraFindLinkIdx issueId lt le l = .ok l.length := by
  intro l
  induction l with
  | nil => intro _; rfl
  | cons s rest ih =>
    intro h
    have hs : jiraLinkMatch s issueId lt le = .ok false := h s (by simp)
    have hr := ih (fun x hx => h x (by simp [hx]))
    simp only [jiraFindLinkIdx, hs, hr]
    rfl

/-- C5 counterexample: the claim asserts the warn-and-leave-unchanged
behaviour for the Jira implementation too, but
`JiraBackend._set_back_issue_links` deletes with an unguarded
`del item_list[found_index]`: reverse-applying an event that added the link
"This issue is blocked by DRILL-5" onto an issue whose stored link list is
empty raises `IndexError` instead of logging and leaving the list
unchanged. -/
theorem claim_C5_cex :
    jiraSetBackIssueLinks (fun _ => 5) [] (some "DRILL-5") none
      (some "This issue is blocked by DRILL-5") none = .error "IndexError" := rfl

/-- A delete whose target id is absent leaves the Bugzilla link list
unchanged (the `IndexError` is caught). -/
theorem bzOldDelAddedLink_of_not_mem (l : List StoredLink) (issueId : Nat)
    (h : issueId ∉ l.map (fun s => s.issue_id)) :
    bzOldDelAddedLink l issueId = l := by
  have hnone : l.findIdx? (fun s => s.issue_id = issueId) = none := by
    rw [List.findIdx?_eq_none_iff]
    intro x hx
    simp only [decide_eq_false_iff_not]
    intro hEq
    exact h (List.mem_map.mpr ⟨x, hx, hEq⟩)
  simp [bzOldDelAddedLink, hnone]

/-- C5 (amended): in the Bugzilla implementation
(`bugzilla_old.BugzillaBackend._set_back_issue_links`) a delete whose
target is not found logs a warning and leaves the issue's link list
unchanged, and the reverse-apply returns normally; the Jira implementation
(`JiraBackend._set_back_issue_links`) instead raises `IndexError` whenever
no stored link matches the identity of the entry to delete. -/
theorem claim_C5 :
    (∀ (l : List StoredLink) (issueId : Nat),
       issueId ∉ l.map (fun s => s.issue_id) →
       bzOldDelAddedLink l issueId = l) ∧
    (∀ (resolve : String → Nat) (l : List StoredLink) (fieldName a : String),
       a ≠ "" → resolve a ∉ l.map (fun s => s.issue_id) →
       bzOldSetBackIssueLinks resolve l fieldName "" a = .ok l) ∧
    (∀ (resolve : String → Nat) (l : List StoredLink) (t s lt le : String)
       (fv fs : Option String),
       t ≠ "" → getIssueLinkTypeAndEffect s = some (lt, le) →
       (∀ st ∈ l, jiraLinkMatch st (resolve t) (some lt) (some le) = .ok false) →
       jiraSetBackIssueLinks resolve l (some t) fv (some s) fs =
         .error "IndexError") := by
  refine ⟨bzOldDelAddedLink_of_not_mem, ?_, ?_⟩
  · intro resolve l fieldName a ha hmem
    simp [bzOldSetBackIssueLinks, ha, bzOldDelAddedLink_of_not_mem l _ hmem,
      Bind.bind, Except.bind]
  · intro resolve l t s lt le fv fs ht hcls hmatch
    have hidx := jiraFindLinkIdx_eq_length (resolve t) (some lt) (some le) l hmatch
    have hdel : pyDelIdx l l.length = (.error "IndexError" : Except String (List StoredLink)) := by
      simp [pyDelIdx]
    simp [jiraSetBackIssueLinks, ht, jiraClassify, hcls, hidx, hdel,
      Bind.bind, Except.bind]

/-- Witness for C5 (amended): a not-found delete on the Bugzilla side
(empty list, and the full set-back with `added="41818"`) leaves the list
unchanged and returns ok; the Jira side errors with `IndexError` on a
stored list whose only link does not match. -/
theorem claim_C5_witness :
    bzOldDelAddedLink [] 5 = [] ∧
    bzOldSetBackIssueLinks (fun _ => 5) [] "blocks" "" "41818" = .ok [] ∧
    jiraSetBackIssueLinks (fun _ => 5)
        [{ issue_id := 9, ltype := some "Reference", effect := some "relates to" }]
        (some "DRILL-5") none (some "is blocked by DRILL-5") none =
      .error "IndexError" := by
  refine ⟨claim_C5.1 [] 5 (by simp),
    claim_C5.2.1 (fun _ => 5) [] "blocks" "41818" (by simp) (by simp),
    claim_C5.2.2 (fun _ => 5) _ "DRILL-5" "is blocked by DRILL-5" "Blocker"
      "is blocked by" none none (by simp) rfl ?_⟩
  intro st hst
  rw [List.mem_singleton] at hst
  subst hst
  rfl


/-- C2 counterexample: processing the raw history item
`{field_name: "status", removed: "NEW", added: "UNCONFIRMED"}` against the
in-progress issue (status "UNCONFIRMED") produces an Event with
`old_value = "NEW"` and `new_value = "UNCONFIRMED"` — the claim's
`oldValue "UNCONFIRMED" / newValue "NEW"` is the other way around
(`new_value` is captured before the mutation, `old_value` after it, and the
mutation writes the `removed` value "NEW").  The repository's own test
(`test_bugzillabackend.test_store_events`, the status event) asserts
`old_value == "NEW"` and `new_value == "UNCONFIRMED"` as well. -/
theorem claim_C2_cex :
    (bzOldProcessEvent [] (fun _ => 0) (fun _ => 3) "95%%0%%0"
        { field_name := "status", removed := "NEW", added := "UNCONFIRMED" }
        c2Issue "2001-02-03 17:48:45" 3).map
      (fun r => (r.1.old_value, r.1.new_value, r.2.2.status)) =
      .ok (some (.s "NEW"), some (.s "UNCONFIRMED"), some "NEW") ∧
    some (EvValue.s "NEW") ≠ some (EvValue.s "UNCONFIRMED") := by
  refine ⟨rfl, ?_⟩
  intro h
  simp at h

/-- C2 (amended): for a raw history entry that changes status with
`removed="NEW"`, `added="UNCONFIRMED"`, processed against an in-progress
issue whose status is "UNCONFIRMED" and a store without this event key,
`bugzilla_old.BugzillaBackend._process_event` produces exactly one new
Event with field "status", oldValue "NEW" and newValue "UNCONFIRMED"
(new captured pre-mutation, old post-mutation), and mutates the in-progress
Issue's status field to "NEW". -/
theorem claim_C2 :
    ∀ (store : List StoredEvent) (resolve people : String → Nat) (uid : String)
      (issue : MongoIssue) (changeDate : String) (authorId : Nat),
      issue.status = some "UNCONFIRMED" →
      store.find? (fun e => e.external_id = uid ∧ e.issue_id = issue.mid) = none →
      bzOldProcessEvent store resolve people uid
          { field_name := "status", removed := "NEW", added := "UNCONFIRMED" }
          issue changeDate authorId =
        .ok ({ external_id := uid, issue_id := issue.mid, created_at := changeDate,
               author_id := some authorId, status := "status",
               old_value := some (.s "NEW"),
               new_value := some (.s "UNCONFIRMED") },
             true, { issue with status := some "NEW" }) := by
  intro store resolve people uid issue changeDate authorId hstatus hfind
  simp only [bzOldProcessEvent, hfind]
  simp [bzAtMapping, mongoIssueHasAttr, mongoIssueGetAttr, mongoIssueGet,
    bzOldSetBackMongoIssue, hstatus, Bind.bind, Except.bind]

/-- Witness for C2: the scenario run concretely (store empty, author id 3
standing for user craig, the raw entry timestamped
2001-02-03T17:48:45Z). -/
theorem claim_C2_witness :
    bzOldProcessEvent [] (fun _ => 0) (fun _ => 3) "95%%0%%0"
        { field_name := "status", removed := "NEW", added := "UNCONFIRMED" }
        c2Issue "2001-02-03 17:48:45" 3 =
      .ok ({ external_id := "95%%0%%0", issue_id := 1,
             created_at := "2001-02-03 17:48:45", author_id := some 3,
             status := "status", old_value := some (.s "NEW"),
             new_value := some (.s "UNCONFIRMED") },
           true, { c2Issue with status := some "NEW" }) :=
  claim_C2 [] (fun _ => 0) (fun _ => 3) "95%%0%%0" c2Issue "2001-02-03 17:48:45" 3
    rfl rfl

/-- C10: after walking an issue's full change history,
`JiraBackend._process_issue` unconditionally sets the reconstructed issue's
status to "Open" before saving: whenever the walk succeeds, the saved
"as originally created" Issue has status "Open", regardless of what value
the reverse-apply of the history computed for that field. -/
theorem claim_C10 :
    ∀ (store : List StoredEvent) (resolve people : String → Nat)
      (snapshot : MongoIssue) (histories : List JiraHistory)
      (out : MongoIssue × List StoredEvent),
      jiraProcessIssue store resolve people snapshot histories = .ok out →
      out.1.status = some "Open" := by
  intro store resolve people snapshot histories out h
  unfold jiraProcessIssue at h
  cases hw : jiraWalkHistories store resolve people histories.reverse snapshot [] with
  | error e => rw [hw] at h; simp [Bind.bind, Except.bind] at h
  | ok r =>
    rw [hw] at h
    simp [Bind.bind, Except.bind] at h
    rw [← h]

/-- Witness for C10: a concrete run with an empty history; the walk
trivially succeeds and the saved issue's status is "Open". -/
theorem claim_C10_witness :
    ∃ out, jiraProcessIssue [] (fun _ => 0) (fun _ => 0) c2Issue [] = .ok out ∧
      out.1.status = some "Open" :=
  ⟨({ c2Issue with status := some "Open" }, []), rfl,
   claim_C10 [] (fun _ => 0) (fun _ => 0) c2Issue []
     ({ c2Issue with status := some "Open" }, []) rfl⟩

/-- C9 counterexample: the field mapper does NOT drop self-referential
links.  The Bugzilla issue with external id "95" (store ObjectId 7 under
`c9Resolve`) whose raw `blocks` list contains bug 95 itself is parsed into
an `issue_links` entry whose target IS the issue's own id, and the entry
survives the `_transform_issue` merge/dedup step. -/
theorem claim_C9_cex :
    bzParseIssueLinks c9Resolve "blocks" (.list [95]) =
      .ok [{ issue_id := 7, ltype := some "Blocker", effect := some "blocks" }] ∧
    c9Resolve "95" = 7 ∧
    7 ∈ (mergeIssueLinks []
          [{ issue_id := 7, ltype := some "Blocker", effect := some "blocks" }]).map
        (fun s => s.issue_id) := by
  refine ⟨rfl, rfl, ?_⟩
  simp [mergeIssueLinks, dedupLinksByIssueId, linkKeysInOrder]

/-- C9 (amended): self-referential issue links are kept, not dropped: for
every raw link list, `bugzilla.BugzillaBackend._parse_issue_links` emits
one `issue_links` entry per raw link (each with its resolved target id —
including a link naming the issue itself), and
`JiraBackend._parse_issue_links` likewise emits one entry per raw link;
neither aborts (the Bugzilla parse returns `ok` for every known link field
name, the Jira parse is total). -/
theorem claim_C9 :
    (∀ (resolve : String → Nat) (atName : String) (t e : String)
       (vals : List Nat),
       bzTypeMapping atName = some t → bzEffectMapping atName = some e →
       bzParseIssueLinks resolve atName (.list vals) =
         .ok (vals.map (fun link =>
           { issue_id := resolve (toString link), ltype := some t,
             effect := some e }))) ∧
    (∀ (resolve : String → Nat) (links : List JiraRawLink),
       (jiraParseIssueLinks resolve links).length = links.length) := by
  constructor
  · intro resolve atName t e vals ht he
    simp [bzParseIssueLinks, ht, he]
  · intro resolve links
    simp [jiraParseIssueLinks]

/-- Witness for C9: the amended statement at the concrete inputs of the
counterexample scenario. -/
theorem claim_C9_witness :
    bzParseIssueLinks c9Resolve "blocks" (.list [95]) =
      .ok ([95].map (fun link =>
        { issue_id := c9Resolve (toString link), ltype := some "Blocker",
          effect := some "blocks" })) ∧
    (jiraParseIssueLinks c9Resolve
        [{ outwardKey := some "95", typeName := "Blocker",
           typeOutward := "blocks", typeInward := "is blocked by" }]).length = 1 :=
  ⟨claim_C9.1 c9Resolve "blocks" "Blocker" "blocks" [95] rfl rfl,
   claim_C9.2 c9Resolve _⟩

/-- C6: the Diff Detector reports "changed" unconditionally when no
previously persisted counterpart exists; when one exists, the comparison is
exactly: some field outside the exclusion set {issue_system_ids (the
tracker-generation set), issue_links, parent_issue_id, _id (the internal
store identifier)} differs — so excluded fields never influence the
verdict — and list-valued fields are compared order-insensitively
(permutation-invariant). -/
theorem claim_C6 :
    (∀ n : MongoDict, checkDiffIssue none n = true) ∧
    (∀ (o n : MongoDict),
      checkDiffIssue (some o) n = false ↔
        ∀ k ∈ dictKeys o n,
          k ∉ ["issue_system_ids", "issue_links", "parent_issue_id", "_id"] →
          fvalMatch (o.lookup k) (n.lookup k) = true) ∧
    (∀ (a b : List String), a.Perm b →
      fvalMatch (some (.l a)) (some (.l b)) = true) := by
  refine ⟨fun _ => rfl, ?_, ?_⟩
  · intro o n
    simp only [checkDiffIssue, checkDiff, deepDiffNonEmpty, List.any_eq_false,
      decide_eq_true_eq, not_and, not_not]
    constructor
    · intro h k hk hnot
      have hc := h k hk
      by_cases hm : (["issue_system_ids", "issue_links", "parent_issue_id"] ++
          ["_id"]).contains k = true
      · exact absurd (by simpa using hm) hnot
      · exact hc (by simpa using hm)
    · intro h k hk hcont
      exact h k hk (by simpa using hcont)
  · intro a b hperm
    simp [fvalMatch, List.isPerm_iff, hperm]

/-- Witness for C6: no-prior-version comparison is "changed", and the
order-insensitivity conjunct at a concrete permuted pair of label lists. -/
theorem claim_C6_witness :
    checkDiffIssue none [("title", FVal.s "x")] = true ∧
    fvalMatch (some (.l ["85", "PatchAvailable"]))
      (some (.l ["PatchAvailable", "85"])) = true :=
  ⟨claim_C6.1 [("title", FVal.s "x")],
   claim_C6.2.2 ["85", "PatchAvailable"] ["PatchAvailable", "85"] (by decide)⟩

/-- C7: for every previously-imported issue whose fresh comparison shows no
real change in a run (`issues_diff` holds no `True` for it), `save_issues`
performs exactly one write for it: the previously stored issue with the
current generation id appended to `issue_system_ids` — every other
persisted field unchanged — and no Comment or Event write. -/
theorem claim_C7 :
    ∀ (st : RunState) (issueId : String) (issue : StIssue) (old : StIssue),
      (st.issuesDiff.lookup issueId).getD false = false →
      st.oldIssues.lookup issueId = some old →
      saveOneIssue st issueId issue =
        .ok [SaveAction.issue
              { old with issue_system_ids := old.issue_system_ids ++ [st.issueSystemId] }] ∧
      (∀ doc : StIssue,
        doc = { old with issue_system_ids := old.issue_system_ids ++ [st.issueSystemId] } →
        doc.external_id = old.external_id ∧ doc.title = old.title ∧
        doc.desc = old.desc ∧ doc.status = old.status ∧ doc.labels = old.labels ∧
        doc.reporter_id = old.reporter_id ∧ doc.creator_id = old.creator_id ∧
        doc.assignee_id = old.assignee_id ∧ doc.created_at = old.created_at ∧
        doc.updated_at = old.updated_at ∧
        doc.is_pull_request = old.is_pull_request ∧
        doc.issue_system_ids = old.issue_system_ids ++ [st.issueSystemId]) ∧
      (∀ (ik tk : String),
        SaveAction.comment ik tk ∉
          [SaveAction.issue
            { old with issue_system_ids := old.issue_system_ids ++ [st.issueSystemId] }] ∧
        SaveAction.event ik tk ∉
          [SaveAction.issue
            { old with issue_system_ids := old.issue_system_ids ++ [st.issueSystemId] }]) := by
  intro st issueId issue old hdiff hold
  refine ⟨?_, ?_, ?_⟩
  · simp [saveOneIssue, hdiff, hold]
  · intro doc hdoc
    subst hdoc
    exact ⟨rfl, rfl, rfl, rfl, rfl, rfl, rfl, rfl, rfl, rfl, rfl, rfl⟩
  · intro ik tk
    constructor <;> simp

/-- Witness for C7: a concrete run state with one unchanged
previously-imported issue; the only write is the old issue with the new
generation id appended. -/
theorem claim_C7_witness :
    saveOneIssue
        { issueSystemId := 9,
          parsedIssues := [("1", { external_id := "1", title := some "t" })],
          parsedComments := [], parsedEvents := [],
          issuesDiff := [("1", false)],
          oldIssues := [("1", { external_id := "1", issue_system_ids := [4],
                                title := some "t" })] }
        "1" { external_id := "1", title := some "t" } =
      .ok [SaveAction.issue
            { external_id := "1", issue_system_ids := [4, 9], title := some "t" }] := by
  have h := (claim_C7
    { issueSystemId := 9,
      parsedIssues := [("1", { external_id := "1", title := some "t" })],
      parsedComments := [], parsedEvents := [],
      issuesDiff := [("1", false)],
      oldIssues := [("1", { external_id := "1", issue_system_ids := [4],
                            title := some "t" })] }
    "1" { external_id := "1", title := some "t" }
    { external_id := "1", issue_system_ids := [4], title := some "t" }
    rfl rfl).1
  simpa using h

/-- Unfolding `upsertOnePerson` on a non-matching head element. -/
theorem upsertOnePerson_cons_false (a : Person) (rest : List Person)
    (name : Option String) (email username : String)
    (h : (decide (a.name = name ∧ a.email = email)) = false) :
    upsertOnePerson (a :: rest) name email username =
      ((upsertOnePerson rest name email username).1 + 1,
       a :: (upsertOnePerson rest name email username).2) := by
  simp only [upsertOnePerson, List.findIdx?_cons, h, Bool.false_eq_true,
    if_false, List.findIdx?_succ]
  cases hr : List.findIdx? (fun p => decide (p.name = name ∧ p.email = email)) rest with
  | none => simp [hr, List.length_cons]
  | some i => simp [hr, List.set_cons_succ]

/-- Upserting the same `(name, email)` identity key twice returns the same
Person id, whatever the usernames. -/
theorem upsertOnePerson_idem (name : Option String) (email u1 u2 : String) :
    ∀ (store : List Person),
      (upsertOnePerson ((upsertOnePerson store name email u1).2)
        name email u2).1 =
      (upsertOnePerson store name email u1).1 := by
  intro store
  induction store with
  | nil =>
    simp [upsertOnePerson, List.findIdx?_nil, List.findIdx?_cons]
  | cons a rest ih =>
    by_cases ha : (decide (a.name = name ∧ a.email = email)) = true
    · have hstep : upsertOnePerson (a :: rest) name email u1 =
          (0, { name := name, email := email, username := u1 } :: rest) := by
        simp only [upsertOnePerson, List.findIdx?_cons, ha, if_true]
        simp [List.set_cons_zero]
      rw [hstep]
      simp [upsertOnePerson, List.findIdx?_cons]
    · have ha' : (decide (a.name = name ∧ a.email = email)) = false := by
        simpa using ha
      rw [upsertOnePerson_cons_false a rest name email u1 ha']
      rw [upsertOnePerson_cons_false a _ name email u2 ha']
      simp [ih]

/-- C8: person resolution normalizes obfuscated e-mails (" at " → "@",
" dot " → ".") before upserting by the `(name, email)` identity key, so
resolving (name "Jane Doe", email "jane at example dot com") and
(name "Jane Doe", email "jane@example.com") yields the same Person record:
the two e-mails normalize identically, and two `_get_people` calls whose
e-mails agree after normalization (cache misses, same name) return the
same Person id. -/
theorem claim_C8 :
    normalizeEmail "jane at example dot com" = "jane@example.com" ∧
    (∀ (st : PeopleState) (fetch fetch2 : String → String × String)
       (u1 u2 e1 e2 nm : String) (r1 r2 : Nat × PeopleState),
       st.cache.lookup u1 = none →
       normalizeEmail e1 = normalizeEmail e2 →
       jiraGetPeople st fetch u1 (some e1) (some nm) = .ok r1 →
       r1.2.cache.lookup u2 = none →
       jiraGetPeople r1.2 fetch2 u2 (some e2) (some nm) = .ok r2 →
       r2.1 = r1.1) := by
  refine ⟨rfl, ?_⟩
  intro st fetch fetch2 u1 u2 e1 e2 nm r1 r2 h1 hnorm hc1 h2 hc2
  simp only [jiraGetPeople, h1] at hc1
  rw [Except.ok.injEq] at hc1
  simp only [jiraGetPeople, h2] at hc2
  rw [Except.ok.injEq] at hc2
  subst hc1
  simp only at hc2
  rw [← hnorm] at hc2
  subst hc2
  exact upsertOnePerson_idem (some nm) (normalizeEmail e1) u1 u2 st.store

/-- Witness for C8: the scenario run concretely from an empty state — both
resolutions return Person id 0. -/
theorem claim_C8_witness :
    ∃ r1 r2 : Nat × PeopleState,
      jiraGetPeople ⟨[], []⟩ (fun _ => ("", "")) "jane1"
        (some "jane at example dot com") (some "Jane Doe") = .ok r1 ∧
      jiraGetPeople r1.2 (fun _ => ("", "")) "jane2"
        (some "jane@example.com") (some "Jane Doe") = .ok r2 ∧
      r2.1 = r1.1 :=
  ⟨(0, ⟨[("jane1", 0)],
     [{ name := some "Jane Doe", email := "jane@example.com",
        username := "jane1" }]⟩),
   (0, ⟨[("jane1", 0), ("jane2", 0)],
     [{ name := some "Jane Doe", email := "jane@example.com",
        username := "jane2" }]⟩),
   rfl, rfl,
   claim_C8.2 ⟨[], []⟩ (fun _ => ("", "")) (fun _ => ("", ""))
     "jane1" "jane2" "jane at example dot com" "jane@example.com" "Jane Doe"
     _ _ rfl rfl rfl rfl rfl⟩

/-- An event whose `(issue_id, external_id)` pair is already stored is not
new: the flag of `bugzilla.BugzillaBackend._process_event` is false. -/
theorem bzProcessEvent_not_new (store : List StoredEvent)
    (resolve people : String → Nat) (uid : String) (ev : BzRawEvent)
    (issueMid : Nat) (changeDate : String) (authorId : Nat)
    (h : (store.find? (fun e => e.external_id = uid ∧ e.issue_id = issueMid)).isSome) :
    (bzProcessEvent store resolve people uid ev issueMid changeDate authorId).2 =
      false := by
  cases hf : store.find? (fun e => e.external_id = uid ∧ e.issue_id = issueMid) with
  | none => rw [hf] at h; simp at h
  | some e0 => simp only [bzProcessEvent, hf]

/-- Inner re-run lemma for `_store_events`: when every change item of one
history already has its event key in the store, nothing is collected. -/
theorem bzChangesToInsert_eq_nil (store : List StoredEvent)
    (resolve people : String → Nat) (rawIssueId : String) (issueMid : Nat)
    (changeDate : String) (authorId : Nat) (j : Nat) :
    ∀ (changes : List BzRawEvent) (i : Nat),
      (∀ (k : Nat) ev, changes[k]? = some ev →
        (store.find? (fun e =>
          e.external_id = rawIssueId ++ "%%" ++ toString (i + k) ++ "%%" ++ toString j ∧
          e.issue_id = issueMid)).isSome) →
      bzChangesToInsert store resolve people rawIssueId issueMid changeDate
        authorId j changes i = [] := by
  intro changes
  induction changes with
  | nil => intro i _; rfl
  | cons ev rest ih =>
    intro i h
    have h0 : (store.find? (fun e =>
        e.external_id = rawIssueId ++ "%%" ++ toString i ++ "%%" ++ toString j ∧
        e.issue_id = issueMid)).isSome := by
      have := h 0 ev (by simp)
      simpa using this
    have hflag := bzProcessEvent_not_new store resolve people
      (rawIssueId ++ "%%" ++ toString i ++ "%%" ++ toString j) ev issueMid
      changeDate authorId h0
    have htail : bzChangesToInsert store resolve people rawIssueId issueMid
        changeDate authorId j rest (i + 1) = [] := by
      apply ih
      intro k ev' hk
      have := h (k + 1) ev' (by simpa using hk)
      have harith : i + (k + 1) = i + 1 + k := by omega
      rwa [harith] at this
    simp only [bzChangesToInsert, hflag, if_false, htail, List.nil_append]
    simp

/-- Outer re-run lemma for `_store_events`. -/
theorem bzStoreEvents_eq_nil (store : List StoredEvent)
    (resolve people : String → Nat) (rawIssueId : String) (issueMid : Nat) :
    ∀ (histories : List BzHistory) (j : Nat),
      (∀ (m : Nat) h, histories[m]? = some h → ∀ (k : Nat) ev,
        h.changes[k]? = some ev →
        (store.find? (fun e =>
          e.external_id = rawIssueId ++ "%%" ++ toString k ++ "%%" ++ toString (j + m) ∧
          e.issue_id = issueMid)).isSome) →
      bzStoreEvents store resolve people rawIssueId issueMid histories j = [] := by
  intro histories
  induction histories with
  | nil => intro j _; rfl
  | cons h rest ih =>
    intro j hh
    have hhead : bzChangesToInsert store resolve people rawIssueId issueMid
        h.hwhen (people h.who) j h.changes 0 = [] := by
      apply bzChangesToInsert_eq_nil
      intro k ev hk
      have := hh 0 h (by simp) k ev hk
      simpa using this
    have htail : bzStoreEvents store resolve people rawIssueId issueMid rest
        (j + 1) = [] := by
      apply ih
      intro m h' hm k ev hk
      have := hh (m + 1) h' (by simpa using hm) k ev hk
      have harith : j + (m + 1) = j + 1 + m := by omega
      rwa [harith] at this
    simp only [bzStoreEvents, hhead, htail, List.nil_append]

/-- Re-run lemma for `_process_comments`: when every non-description
comment's key is already stored, nothing is collected. -/
theorem bzProcessComments_eq_nil (store : List StoredComment)
    (people : String → Nat) (issueMid : Nat) :
    ∀ (comments : List BzRawComment) (i : Nat),
      (∀ (k : Nat), k < (comments.filter (fun c => ¬ c.count = 0)).length →
        (store.find? (fun sc =>
          sc.external_id = toString issueMid ++ "%%" ++ toString (i + k) ∧
          sc.issue_id = issueMid)).isSome) →
      bzProcessComments store people issueMid comments i = [] := by
  intro comments
  induction comments with
  | nil => intro i _; rfl
  | cons c rest ih =>
    intro i h
    by_cases hc : c.count = 0
    · have htail : bzProcessComments store people issueMid rest i = [] := by
        apply ih
        intro k hk
        apply h
        simpa [List.filter, hc] using hk
      simp [bzProcessComments, hc, htail]
    · have h0 : (store.find? (fun sc =>
          sc.external_id = toString issueMid ++ "%%" ++ toString i ∧
          sc.issue_id = issueMid)).isSome := by
        have := h 0 (by simp [List.filter, hc])
        simpa using this
      obtain ⟨sc, hsc⟩ := Option.isSome_iff_exists.mp h0
      have htail : bzProcessComments store people issueMid rest (i + 1) = [] := by
        apply ih
        intro k hk
        have hk' : k + 1 < ((c :: rest).filter (fun c => ¬ c.count = 0)).length := by
          simp [List.filter, hc] at hk ⊢
          omega
        have := h (k + 1) hk'
        have harith : i + (k + 1) = i + 1 + k := by omega
        rwa [harith] at this
      simp only [bzProcessComments, if_neg hc]
      rw [hsc]
      simp [htail]

/-- C1: re-running event/comment processing against unchanged raw tracker
data inserts nothing — `(issueID, externalID)` is the idempotence key.
(1) The Bugzilla `_process_event` returns the stored record itself with
`is_new_event = False` when the key already exists; (2) the Jira
`_process_event` likewise returns `newly_created = False` and the stored
record's identity fields; (3) a full `_store_events` walk whose every
history item's key is already stored collects an empty insert list; (4) a
full `_process_comments` walk whose every non-description comment's key is
already stored collects an empty insert list. -/
theorem claim_C1 :
    (∀ (store : List StoredEvent) (resolve people : String → Nat) (uid : String)
       (ev : BzRawEvent) (issueMid : Nat) (changeDate : String) (authorId : Nat)
       (e0 : StoredEvent),
       store.find? (fun e => e.external_id = uid ∧ e.issue_id = issueMid) = some e0 →
       bzProcessEvent store resolve people uid ev issueMid changeDate authorId =
         (e0, false)) ∧
    (∀ (store : List StoredEvent) (resolve people : String → Nat)
       (createdAt : String) (authorId : Option Nat) (ev : JiraRawEvent)
       (uid : String) (issue : MongoIssue) (e0 : StoredEvent)
       (out : StoredEvent × Bool × MongoIssue),
       store.find? (fun e => e.external_id = uid ∧ e.issue_id = issue.mid) = some e0 →
       jiraProcessEvent store resolve people createdAt authorId ev uid issue =
         .ok out →
       out.2.1 = false ∧ out.1.external_id = e0.external_id ∧
       out.1.issue_id = e0.issue_id ∧ out.1.created_at = e0.created_at ∧
       out.1.author_id = e0.author_id) ∧
    (∀ (store : List StoredEvent) (resolve people : String → Nat)
       (rawIssueId : String) (issueMid : Nat) (histories : List BzHistory),
       (∀ (m : Nat) h, histories[m]? = some h → ∀ (k : Nat) ev,
         h.changes[k]? = some ev →
         (store.find? (fun e =>
           e.external_id = rawIssueId ++ "%%" ++ toString k ++ "%%" ++ toString m ∧
           e.issue_id = issueMid)).isSome) →
       bzStoreEvents store resolve people rawIssueId issueMid histories 0 = []) ∧
    (∀ (store : List StoredComment) (people : String → Nat) (issueMid : Nat)
       (comments : List BzRawComment),
       (∀ (k : Nat), k < (comments.filter (fun c => ¬ c.count = 0)).length →
         (store.find? (fun sc =>
           sc.external_id = toString issueMid ++ "%%" ++ toString k ∧
           sc.issue_id = issueMid)).isSome) →
       bzProcessComments store people issueMid comments 0 = []) := by
  refine ⟨?_, ?_, ?_, ?_⟩
  · intro store resolve people uid ev issueMid changeDate authorId e0 hfind
    simp only [bzProcessEvent, hfind]
  · intro store resolve people createdAt authorId ev uid issue e0 out hfind hrun
    simp only [jiraProcessEvent, hfind, Option.isNone_some] at hrun
    by_cases hat : mongoIssueHasAttr issue
        ((jiraAtMapping ((jiraTerminologyMapping ev.field).getD ev.field)).getD
          ((jiraTerminologyMapping ev.field).getD ev.field)) = true
    · rw [if_pos hat] at hrun
      cases hsb : jiraSetBackMongoIssue resolve people issue
          ((jiraAtMapping ((jiraTerminologyMapping ev.field).getD ev.field)).getD
            ((jiraTerminologyMapping ev.field).getD ev.field)) ev with
      | error e =>
        rw [hsb] at hrun
        simp [Bind.bind, Except.bind] at hrun
      | ok issue' =>
        rw [hsb] at hrun
        simp only [Bind.bind, Except.bind, Except.ok.injEq] at hrun
        subst hrun
        exact ⟨rfl, rfl, rfl, rfl, rfl⟩
    · rw [if_neg hat] at hrun
      rw [Except.ok.injEq] at hrun
      subst hrun
      exact ⟨rfl, rfl, rfl, rfl, rfl⟩
  · intro store resolve people rawIssueId issueMid histories hh
    apply bzStoreEvents_eq_nil
    intro m h hm k ev hk
    have := hh m h hm k ev hk
    simpa using this
  · intro store people issueMid comments hh
    apply bzProcessComments_eq_nil
    intro k hk
    have := hh k hk
    simpa using this

/-- Witness for C1: a re-run over a store already holding the event key
"95%%0%%0" for issue 1 and the comment key "1%%0" — the Bugzilla event walk
and the comment walk collect nothing, the Jira processing returns the
stored identity with the new-flag cleared. -/
theorem claim_C1_witness :
    bzProcessEvent [c1Event] (fun _ => 0) (fun _ => 3) "95%%0%%0" c1RawEvent 1
        "2001-02-03 17:48:45" 3 = (c1Event, false) ∧
    (∃ out, jiraProcessEvent [c1Event] (fun _ => 0) (fun _ => 3)
        "2001-02-03 17:48:45" (some 3) c1JiraRaw "95%%0%%0" c2Issue = .ok out ∧
      out.2.1 = false ∧ out.1.external_id = c1Event.external_id ∧
      out.1.issue_id = c1Event.issue_id ∧
      out.1.created_at = c1Event.created_at ∧
      out.1.author_id = c1Event.author_id) ∧
    bzStoreEvents [c1Event] (fun _ => 0) (fun _ => 3) "95" 1 c1Histories 0 = [] ∧
    bzProcessComments [c1Comment] (fun _ => 5) 1 c1RawComments 0 = [] := by
  refine ⟨?_, ?_, ?_, ?_⟩
  · exact claim_C1.1 [c1Event] (fun _ => 0) (fun _ => 3) "95%%0%%0" c1RawEvent 1
      "2001-02-03 17:48:45" 3 c1Event (by decide)
  · refine ⟨({ c1Event with
        status := "status",
        new_value := some (.s "UNCONFIRMED"),
        old_value := some (.s "Reopened") }, false,
        { c2Issue with
          status := some "Reopened" }), rfl, ?_⟩
    exact claim_C1.2.1 [c1Event] (fun _ => 0) (fun _ => 3)
      "2001-02-03 17:48:45" (some 3) c1JiraRaw "95%%0%%0" c2Issue c1Event _
      (by decide) rfl
  · apply claim_C1.2.2.1
    intro m h hm k ev hk
    cases m with
    | zero =>
      simp only [c1Histories] at hm
      rw [List.getElem?_cons_zero, Option.some.injEq] at hm
      subst hm
      cases k with
      | zero =>
        rw [List.getElem?_cons_zero, Option.some.injEq] at hk
        subst hk
        decide
      | succ k' =>
        simp at hk
    | succ m' =>
      simp [c1Histories] at hm
  · apply claim_C1.2.2.2
    intro k hk
    have hk0 : k = 0 := by
      simp [c1RawComments, List.filter] at hk
      omega
    subst hk0
    decide

end IssueShark
